import Mathlib

/-!
Shallow embedding of `scripts/batch_caption.py` (the fluxyoga batch caption
orchestrator): image discovery, skip/overwrite policy, backend dispatch,
result classification, caption persistence with templating, and the
line-oriented progress protocol.  The captioning backends themselves are
external processes; their observable behaviour (timeout, exit code, stdout,
stderr) is an input to the model, as is the behaviour of `json.loads`
(opaque to the orchestrator) and the success of the sidecar file write.
-/

namespace BatchCaption

/-- Whitespace characters removed by Python `str.strip()` (ASCII range). -/
def isPyWhitespace (c : Char) : Bool :=
  c = ' ' || c = '\t' || c = '\n' || c = '\r' || c.toNat = 11 || c.toNat = 12

/-- Model of Python `str.strip()`: drop leading and trailing whitespace. -/
def pyStrip (s : String) : String :=
  String.mk (((s.toList.dropWhile isPyWhitespace).reverse.dropWhile isPyWhitespace).reverse)

/-- Model of Python `s.startswith(pat)`. -/
def pyStarts (s pat : String) : Bool :=
  pat.toList.isPrefixOf s.toList

/-- Model of Python `str.lower()` (ASCII range, which covers the extensions). -/
def pyLower (s : String) : String :=
  String.mk (s.toList.map Char.toLower)

/-- Occurrence test for Python `pat in s` on character lists. -/
def containsSub (pat : List Char) : List Char → Bool
  | [] => pat.isEmpty
  | c :: rest => pat.isPrefixOf (c :: rest) || containsSub pat rest

/-- Fuel-indexed core of Python `str.replace`: replace every non-overlapping
occurrence of `pat` left to right.  The fuel is the input length, which
bounds the number of steps since every step consumes at least one character. -/
def replaceFuel (pat rep : List Char) : Nat → List Char → List Char
  | 0, s => s
  | _ + 1, [] => []
  | n + 1, c :: rest =>
    if !pat.isEmpty && pat.isPrefixOf (c :: rest) then
      rep ++ replaceFuel pat rep n (List.drop (pat.length - 1) rest)
    else
      c :: replaceFuel pat rep n rest

/-- Model of Python `s.replace(pat, rep)`. -/
def pyReplace (s pat rep : String) : String :=
  String.mk (replaceFuel pat.toList rep.toList s.toList.length s.toList)

/-- Index of the last dot in a character list, as in `name.rfind "."`. -/
def lastDotIdx : List Char → Option Nat
  | [] => none
  | c :: cs =>
    match lastDotIdx cs with
    | some i => some (i + 1)
    | none => if c = '.' then some 0 else none

/-- Model of pathlib `PurePath.suffix` on a file name: the final dot-led
component, or empty when the name has no dot, only a leading dot, or a
trailing dot (CPython: the last dot index must satisfy `0 < i < len - 1`). -/
def pySuffix (name : String) : String :=
  let cs := name.toList
  match lastDotIdx cs with
  | some i => if 0 < i ∧ i + 1 < cs.length then String.mk (cs.drop i) else ""
  | none => ""

/-- Model of pathlib `with_suffix(".txt")`: drop the suffix, append `.txt`. -/
def withSuffixTxt (name : String) : String :=
  String.mk (name.toList.take (name.toList.length - (pySuffix name).toList.length)) ++ ".txt"

/-- The fixed supported-extension set of `batch_caption.py`. -/
def IMAGE_EXTENSIONS : List String := [".jpg", ".jpeg", ".png", ".bmp", ".tiff", ".webp"]

/-- One entry of the source directory listing (`Path.iterdir`). -/
structure DirEntry where
  name : String
  isFile : Bool
deriving DecidableEq

/-- The source folder: whether the path exists, and its direct entries. -/
structure Folder where
  present : Bool
  entries : List DirEntry
deriving DecidableEq

/-- Lexicographic comparison of character lists by code point, the order
Python uses to compare the path strings in `sorted(image_files)`. -/
def charsLe : List Char → List Char → Bool
  | [], _ => true
  | _ :: _, [] => false
  | a :: as, b :: bs =>
    if a.toNat < b.toNat then true
    else if b.toNat < a.toNat then false
    else charsLe as bs

/-- Code-point comparison lifted to strings. -/
def strLeB (a b : String) : Bool := charsLe a.toList b.toList

/-- The ordering relation used for the deterministic listing of discovery. -/
def nameLe (a b : String) : Prop := strLeB a b = true

instance : DecidableRel nameLe := fun a b => (inferInstance : Decidable (strLeB a b = true))

/-- Sorting of discovered names, as in `sorted(image_files)`. -/
def sortNames (l : List String) : List String := List.insertionSort nameLe l

/-- The filter of `find_image_files`: regular file whose lower-cased
pathlib suffix is in `IMAGE_EXTENSIONS`. -/
def eligibleEntry (e : DirEntry) : Bool :=
  e.isFile && IMAGE_EXTENSIONS.contains (pyLower (pySuffix e.name))

/-- Model of `find_image_files`: error when the folder does not exist
(`ValueError("Source folder does not exist: ...")`), otherwise the sorted
list of eligible entry names. -/
def find_image_files (folder : Folder) (source_folder : String) : Except String (List String) :=
  if folder.present then
    .ok (sortNames ((folder.entries.filter eligibleEntry).map DirEntry.name))
  else
    .error ("Source folder does not exist: " ++ source_folder)

/-- Model of `caption_exists`: a sidecar `.txt` file for the image is present
in the file store. -/
def caption_exists (store : String → Option String) (imageName : String) : Bool :=
  (store (withSuffixTxt imageName)).isSome

/-- The template step of `save_caption`: when a template is given, is not
empty, and holds the placeholder `\x7bcaption\x7d`, substitute the caption into it;
otherwise write the raw caption. -/
def applyTemplate (template : Option String) (caption : String) : String :=
  match template with
  | some t =>
    if t != "" && containsSub "\x7bcaption\x7d".toList t.toList then
      pyReplace t "\x7bcaption\x7d" caption
    else caption
  | none => caption

/-- Model of `save_caption`: write the (possibly templated) caption to the
sidecar path, overwriting unconditionally. -/
def save_caption (store : String → Option String) (imageName caption : String)
    (template : Option String) : String → Option String :=
  fun n => if n = withSuffixTxt imageName then some (applyTemplate template caption) else store n

/-- Observable behaviour of one `subprocess.run` invocation: either the
120-second timeout fires (`subprocess.TimeoutExpired`), or the process
completes with an exit code, stdout and stderr. -/
inductive ProcOutcome where
  | timedOut
  | completed (returncode : Int) (stdout stderr : String)
deriving DecidableEq

/-- Observable behaviour of `json.loads` followed by `.get("caption", ...)`
on a given string: the parse raises `JSONDecodeError`, or yields a JSON
object whose `caption` field is present or absent, or yields a non-object
value on which `.get` raises an `AttributeError` with some message. -/
inductive JsonParse where
  | malformed
  | obj (captionField : Option String)
  | nonObj (errMsg : String)
deriving DecidableEq

/-- The backend identifiers `generate_caption_for_image` dispatches on; any
other identifier raises `ValueError(f"Unsupported model: ...")` before any
process is spawned.  (The CLI parser additionally restricts `--model` to
this same set via `choices`.) -/
def SUPPORTED_MODELS : List String := ["blip", "blip2", "gpt-4-vision", "vit-gpt2", "florence-2"]

/-- Model of `generate_caption_for_image`.  All exceptions are caught inside
the Python function, which always returns a string; strings starting with
`"Error"` are the reserved error marker.  `jparse` is the behaviour of
`json.loads` (consulted only on the florence-2 path), `proc` the behaviour
of the spawned process. -/
def generate_caption_for_image (model : String) (jparse : String → JsonParse)
    (proc : ProcOutcome) : String :=
  if SUPPORTED_MODELS.contains model then
    match proc with
    | .timedOut => "Error: Caption generation timed out"
    | .completed rc out err =>
      if rc = 0 then
        if model = "florence-2" then
          match jparse (pyStrip out) with
          | .malformed => pyStrip out
          | .obj (some c) => c
          | .obj none => "No caption generated"
          | .nonObj e => "Error: " ++ e
        else pyStrip out
      else
        "Error: " ++ (if pyStrip err = "" then "Unknown error" else pyStrip err)
  else
    "Error: Unsupported model: " ++ model

/-- One line of the progress protocol emitted by `main`. -/
inductive Event where
  | progress (message : String)
  | progressFile (message : String) (current total : Nat) (filename : String)
  | fileDone (filename : String) (caption : String)
  | summary (total_files processed skipped failed : Nat) (processed_files : List String)
  | error (message : String)
deriving DecidableEq

/-- Caption truncation of the `file_processed` event (100 characters). -/
def truncateCaption (c : String) : String :=
  if c.toList.length > 100 then String.mk (c.toList.take 100) ++ "..." else c

/-- The parsed command line of `main` (defaults as in the argparse setup). -/
structure Args where
  source_folder : String
  model : String := "florence-2"
  style : String := "detailed"
  template : Option String := none
  overwrite : Bool := false
  max_tokens : Nat := 150

/-- Environment behaviour for one image: what its backend process does, and
whether the sidecar write in `save_caption` succeeds (a failed write raises
an `OSError` caught by the per-image handler). -/
structure ImgEnv where
  proc : ProcOutcome
  saveOk : Bool

/-- The mutable state of one batch run: the sidecar file store, the three
category lists, the emitted events, and two observation logs — which images
had a process spawned, and for which images `save_caption` was invoked. -/
structure RunState where
  store : String → Option String
  processed : List String
  skipped : List String
  failed : List String
  events : List Event
  spawned : List String
  saveCalled : List String

/-- The body of the per-image loop of `main` (lines 159-202): skip when
overwrite is off and a sidecar exists; otherwise emit the processing event,
invoke the backend, classify the returned text, and on the success
classification call `save_caption` — a write failure is caught by the
per-image `except` and counts the image as failed. -/
def processImage (args : Args) (jparse : String → JsonParse) (env : String → ImgEnv)
    (total : Nat) (i : Nat) (st : RunState) (name : String) : RunState :=
  if !args.overwrite && caption_exists st.store name then
    { st with
      skipped := st.skipped ++ [name],
      events := st.events ++ [.progress ("Skipped " ++ name ++ " (caption exists)")] }
  else
    let st1 : RunState :=
      { st with
        events := st.events ++
          [.progressFile ("Processing " ++ toString (i + 1) ++ "/" ++ toString total ++ ": " ++ name)
            (i + 1) total name],
        spawned := if SUPPORTED_MODELS.contains args.model then st.spawned ++ [name] else st.spawned }
    let caption := generate_caption_for_image args.model jparse (env name).proc
    if caption != "" && !(pyStarts caption "Error") then
      if (env name).saveOk then
        { st1 with
          store := save_caption st1.store name caption args.template,
          processed := st1.processed ++ [name],
          events := st1.events ++ [.fileDone name (truncateCaption caption)],
          saveCalled := st1.saveCalled ++ [name] }
      else
        { st1 with
          failed := st1.failed ++ [name],
          saveCalled := st1.saveCalled ++ [name] }
    else
      { st1 with failed := st1.failed ++ [name] }

/-- The per-image loop of `main`, strictly in discovery order. -/
def runLoop (args : Args) (jparse : String → JsonParse) (env : String → ImgEnv)
    (total : Nat) : Nat → RunState → List String → RunState
  | _, st, [] => st
  | i, st, name :: rest =>
    runLoop args jparse env total (i + 1) (processImage args jparse env total i st name) rest

/-- Result of one whole run: the final state and the process exit code. -/
structure RunResult where
  state : RunState
  exitCode : Nat

/-- The state at the start of a run over an initial file store. -/
def initState (store : String → Option String) : RunState :=
  ⟨store, [], [], [], [], [], []⟩

/-- Model of `main` after argument parsing: discovery (a failure is caught
by the outer handler, which prints an error event and calls `sys.exit(1)`),
the zero-image early `return` (exit code 0), otherwise the opening progress
event, the loop, the summary event and the closing progress event. -/
def runBatch (args : Args) (folder : Folder) (store0 : String → Option String)
    (jparse : String → JsonParse) (env : String → ImgEnv) : RunResult :=
  match find_image_files folder args.source_folder with
  | .error msg =>
    ⟨{ initState store0 with
        events := [.error ("Batch caption generation failed: " ++ msg)] }, 1⟩
  | .ok [] =>
    ⟨{ initState store0 with
        events := [.error ("No image files found in " ++ args.source_folder)] }, 0⟩
  | .ok (n :: ns) =>
    let names := n :: ns
    let total := names.length
    let st0 : RunState :=
      { initState store0 with
        events := [.progress ("Found " ++ toString total ++ " images to process")] }
    let st := runLoop args jparse env total 0 st0 names
    ⟨{ st with
        events := st.events ++
          [.summary total st.processed.length st.skipped.length st.failed.length st.processed,
           .progress ("Batch caption generation completed! Processed: " ++
             toString st.processed.length ++ ", Skipped: " ++ toString st.skipped.length ++
             ", Failed: " ++ toString st.failed.length)] }, 0⟩

/-! Order lemmas for the name ordering used by discovery. -/

theorem charsLe_trans : ∀ a b c, charsLe a b = true → charsLe b c = true → charsLe a c = true
  | [], _, _, _, _ => by simp [charsLe]
  | _ :: _, [], _, hab, _ => by simp [charsLe] at hab
  | _ :: _, _ :: _, [], _, hbc => by simp [charsLe] at hbc
  | a :: as, b :: bs, c :: cs, hab, hbc => by
    simp only [charsLe] at hab hbc ⊢
    by_cases h1 : a.toNat < b.toNat
    · by_cases h2 : b.toNat < c.toNat
      · simp [show a.toNat < c.toNat by omega]
      · rw [if_neg h2] at hbc
        by_cases h4 : c.toNat < b.toNat
        · rw [if_pos h4] at hbc; exact absurd hbc (by simp)
        · simp [show a.toNat < c.toNat by omega]
    · rw [if_neg h1] at hab
      by_cases h3 : b.toNat < a.toNat
      · rw [if_pos h3] at hab; exact absurd hab (by simp)
      · rw [if_neg h3] at hab
        by_cases h2 : b.toNat < c.toNat
        · simp [show a.toNat < c.toNat by omega]
        · rw [if_neg h2] at hbc
          by_cases h4 : c.toNat < b.toNat
          · rw [if_pos h4] at hbc; exact absurd hbc (by simp)
          · rw [if_neg h4] at hbc
            rw [if_neg (show ¬ a.toNat < c.toNat by omega),
              if_neg (show ¬ c.toNat < a.toNat by omega)]
            exact charsLe_trans as bs cs hab hbc

theorem charsLe_total : ∀ a b, charsLe a b = true ∨ charsLe b a = true
  | [], _ => Or.inl (by simp [charsLe])
  | _ :: _, [] => Or.inr (by simp [charsLe])
  | a :: as, b :: bs => by
    simp only [charsLe]
    by_cases h1 : a.toNat < b.toNat
    · left; simp [h1]
    · by_cases h3 : b.toNat < a.toNat
      · right; simp [h3]
      · rcases charsLe_total as bs with h | h
        · left; simp [h1, h3, h]
        · right; simp [h1, h3, h]

instance : IsTotal String nameLe := ⟨fun a b => charsLe_total a.toList b.toList⟩

instance : IsTrans String nameLe := ⟨fun a b c => charsLe_trans a.toList b.toList c.toList⟩

/-- A string starting with `p` still starts with `p` after appending. -/
theorem pyStarts_append (a p b : String) (h : pyStarts a p = true) :
    pyStarts (a ++ b) p = true := by
  simp only [pyStarts] at h ⊢
  rw [List.isPrefixOf_iff_prefix] at h ⊢
  show p.toList <+: (a ++ b).data
  rw [String.data_append]
  exact h.trans (List.prefix_append _ _)

/-- Every run of the loop body moves the image into exactly one of the three
category lists and leaves the other two unchanged. -/
theorem processImage_tri (args : Args) (jparse : String → JsonParse) (env : String → ImgEnv)
    (total i : Nat) (st : RunState) (name : String) (r : RunState)
    (hr : r = processImage args jparse env total i st name) :
    (r.processed = st.processed ++ [name] ∧ r.skipped = st.skipped ∧ r.failed = st.failed) ∨
    (r.processed = st.processed ∧ r.skipped = st.skipped ++ [name] ∧ r.failed = st.failed) ∨
    (r.processed = st.processed ∧ r.skipped = st.skipped ∧ r.failed = st.failed ++ [name]) := by
  subst hr
  simp only [processImage]
  split_ifs <;> simp

/-- Across the loop, the three category lists together accumulate exactly the
processed names, in some order. -/
theorem runLoop_perm (args : Args) (jparse : String → JsonParse) (env : String → ImgEnv)
    (total : Nat) :
    ∀ (l : List String) (i : Nat) (st : RunState),
      ((runLoop args jparse env total i st l).processed ++
        (runLoop args jparse env total i st l).skipped ++
        (runLoop args jparse env total i st l).failed).Perm
        (st.processed ++ st.skipped ++ st.failed ++ l)
  | [], i, st => by simp [runLoop]
  | n :: rest, i, st => by
    simp only [runLoop]
    refine (runLoop_perm args jparse env total rest (i + 1)
      (processImage args jparse env total i st n)).trans ?_
    rcases processImage_tri args jparse env total i st n _ rfl with
      ⟨h1, h2, h3⟩ | ⟨h1, h2, h3⟩ | ⟨h1, h2, h3⟩ <;>
    · rw [h1, h2, h3, List.perm_iff_count]
      intro a
      simp [List.count_append, List.count_cons]
      try omega

/-- Specialization of `runLoop_perm` to a start state with empty category lists. -/
theorem runLoop_perm_nil (args : Args) (jparse : String → JsonParse) (env : String → ImgEnv)
    (total : Nat) (l : List String) (i : Nat) (st : RunState)
    (h1 : st.processed = []) (h2 : st.skipped = []) (h3 : st.failed = []) :
    ((runLoop args jparse env total i st l).processed ++
      (runLoop args jparse env total i st l).skipped ++
      (runLoop args jparse env total i st l).failed).Perm l := by
  have h := runLoop_perm args jparse env total l i st
  rw [h1, h2, h3] at h
  simpa using h

/-- Claim C1: after every completed run, each discovered image is counted in
exactly one of the skipped, processed or failed categories (the three lists
together are a permutation of the discovered list), and the summary event
reports counts with `processed + skipped + failed = total_files`. -/
theorem C1_run_partition (args : Args) (folder : Folder) (store0 : String → Option String)
    (jparse : String → JsonParse) (env : String → ImgEnv) (names : List String)
    (hfind : find_image_files folder args.source_folder = .ok names)
    (hne : names ≠ []) :
    ((runBatch args folder store0 jparse env).state.processed ++
      (runBatch args folder store0 jparse env).state.skipped ++
      (runBatch args folder store0 jparse env).state.failed).Perm names ∧
    Event.summary names.length
      (runBatch args folder store0 jparse env).state.processed.length
      (runBatch args folder store0 jparse env).state.skipped.length
      (runBatch args folder store0 jparse env).state.failed.length
      (runBatch args folder store0 jparse env).state.processed
      ∈ (runBatch args folder store0 jparse env).state.events ∧
    (runBatch args folder store0 jparse env).state.processed.length +
      (runBatch args folder store0 jparse env).state.skipped.length +
      (runBatch args folder store0 jparse env).state.failed.length = names.length := by
  obtain ⟨n, ns, rfl⟩ : ∃ n ns, names = n :: ns := by
    cases names with
    | nil => exact absurd rfl hne
    | cons n ns => exact ⟨n, ns, rfl⟩
  simp only [runBatch, hfind]
  have hperm := runLoop_perm_nil args jparse env (n :: ns).length (n :: ns) 0
    { initState store0 with
      events := [.progress ("Found " ++ toString (n :: ns).length ++ " images to process")] }
    rfl rfl rfl
  refine ⟨hperm, by simp, ?_⟩
  have hlen := hperm.length_eq
  simp only [List.length_append] at hlen
  omega

/-- Concrete instance of C1: one discovered image, a blip run on a fresh store. -/
theorem C1_witness :
    find_image_files ⟨true, [⟨"a.jpg", true⟩]⟩ "imgs" = .ok ["a.jpg"] ∧
    (["a.jpg"] : List String) ≠ [] ∧
    (((runBatch ⟨"imgs", "blip", "detailed", none, false, 150⟩ ⟨true, [⟨"a.jpg", true⟩]⟩
        (fun _ => none) (fun _ => .malformed) (fun _ => ⟨.completed 0 "hi" "", true⟩)).state.processed ++
      (runBatch ⟨"imgs", "blip", "detailed", none, false, 150⟩ ⟨true, [⟨"a.jpg", true⟩]⟩
        (fun _ => none) (fun _ => .malformed) (fun _ => ⟨.completed 0 "hi" "", true⟩)).state.skipped ++
      (runBatch ⟨"imgs", "blip", "detailed", none, false, 150⟩ ⟨true, [⟨"a.jpg", true⟩]⟩
        (fun _ => none) (fun _ => .malformed) (fun _ => ⟨.completed 0 "hi" "", true⟩)).state.failed).Perm
        ["a.jpg"] ∧
    Event.summary (["a.jpg"] : List String).length
      (runBatch ⟨"imgs", "blip", "detailed", none, false, 150⟩ ⟨true, [⟨"a.jpg", true⟩]⟩
        (fun _ => none) (fun _ => .malformed) (fun _ => ⟨.completed 0 "hi" "", true⟩)).state.processed.length
      (runBatch ⟨"imgs", "blip", "detailed", none, false, 150⟩ ⟨true, [⟨"a.jpg", true⟩]⟩
        (fun _ => none) (fun _ => .malformed) (fun _ => ⟨.completed 0 "hi" "", true⟩)).state.skipped.length
      (runBatch ⟨"imgs", "blip", "detailed", none, false, 150⟩ ⟨true, [⟨"a.jpg", true⟩]⟩
        (fun _ => none) (fun _ => .malformed) (fun _ => ⟨.completed 0 "hi" "", true⟩)).state.failed.length
      (runBatch ⟨"imgs", "blip", "detailed", none, false, 150⟩ ⟨true, [⟨"a.jpg", true⟩]⟩
        (fun _ => none) (fun _ => .malformed) (fun _ => ⟨.completed 0 "hi" "", true⟩)).state.processed
      ∈ (runBatch ⟨"imgs", "blip", "detailed", none, false, 150⟩ ⟨true, [⟨"a.jpg", true⟩]⟩
        (fun _ => none) (fun _ => .malformed) (fun _ => ⟨.completed 0 "hi" "", true⟩)).state.events ∧
    (runBatch ⟨"imgs", "blip", "detailed", none, false, 150⟩ ⟨true, [⟨"a.jpg", true⟩]⟩
        (fun _ => none) (fun _ => .malformed) (fun _ => ⟨.completed 0 "hi" "", true⟩)).state.processed.length +
      (runBatch ⟨"imgs", "blip", "detailed", none, false, 150⟩ ⟨true, [⟨"a.jpg", true⟩]⟩
        (fun _ => none) (fun _ => .malformed) (fun _ => ⟨.completed 0 "hi" "", true⟩)).state.skipped.length +
      (runBatch ⟨"imgs", "blip", "detailed", none, false, 150⟩ ⟨true, [⟨"a.jpg", true⟩]⟩
        (fun _ => none) (fun _ => .malformed) (fun _ => ⟨.completed 0 "hi" "", true⟩)).state.failed.length =
      (["a.jpg"] : List String).length) :=
  ⟨rfl, by decide,
    C1_run_partition ⟨"imgs", "blip", "detailed", none, false, 150⟩ ⟨true, [⟨"a.jpg", true⟩]⟩
      (fun _ => none) (fun _ => .malformed) (fun _ => ⟨.completed 0 "hi" "", true⟩)
      ["a.jpg"] rfl (by decide)⟩

/-- Claim C3: with overwrite disabled, an image with an existing sidecar is
skipped and no backend is invoked for it; with overwrite enabled every image
is dispatched (never skipped, always classified processed or failed, and a
process is spawned whenever the backend identifier is supported). -/
theorem C3_skip_policy (args : Args) (jparse : String → JsonParse) (env : String → ImgEnv)
    (total i : Nat) (st : RunState) (name : String) :
    ((args.overwrite = false ∧ caption_exists st.store name = true →
        (processImage args jparse env total i st name).skipped = st.skipped ++ [name] ∧
        (processImage args jparse env total i st name).processed = st.processed ∧
        (processImage args jparse env total i st name).failed = st.failed ∧
        (processImage args jparse env total i st name).spawned = st.spawned) ∧
      (args.overwrite = true →
        (processImage args jparse env total i st name).skipped = st.skipped ∧
        ((processImage args jparse env total i st name).processed = st.processed ++ [name] ∨
          (processImage args jparse env total i st name).failed = st.failed ++ [name]) ∧
        (SUPPORTED_MODELS.contains args.model = true →
          (processImage args jparse env total i st name).spawned = st.spawned ++ [name]))) := by
  constructor
  · rintro ⟨ho, hc⟩
    have hcond : (!args.overwrite && caption_exists st.store name) = true := by simp [ho, hc]
    simp [processImage, hcond]
  · intro ho
    have hcond : (!args.overwrite && caption_exists st.store name) = false := by simp [ho]
    refine ⟨?_, ?_, ?_⟩
    · simp [processImage, hcond]
      try (split_ifs <;> simp)
    · simp [processImage, hcond]
      try (split_ifs <;> simp)
    · intro hm
      have hm' : args.model ∈ SUPPORTED_MODELS := by simpa using hm
      simp [processImage, hcond, hm']
      try (split_ifs <;> simp_all)

/-- Concrete instance of C3: the skip half on an image with an existing
sidecar, overwrite disabled. -/
theorem C3_witness :
    ((⟨"d", "blip", "detailed", none, false, 150⟩ : Args).overwrite = false ∧
      caption_exists (fun n => if n = "a.txt" then some "old" else none) "a.jpg" = true) ∧
    ((processImage ⟨"d", "blip", "detailed", none, false, 150⟩ (fun _ => .malformed)
        (fun _ => ⟨.completed 0 "hi" "", true⟩) 1 0
        ⟨fun n => if n = "a.txt" then some "old" else none, [], [], [], [], [], []⟩ "a.jpg").skipped =
      ([] : List String) ++ ["a.jpg"] ∧
      (processImage ⟨"d", "blip", "detailed", none, false, 150⟩ (fun _ => .malformed)
        (fun _ => ⟨.completed 0 "hi" "", true⟩) 1 0
        ⟨fun n => if n = "a.txt" then some "old" else none, [], [], [], [], [], []⟩ "a.jpg").processed = [] ∧
      (processImage ⟨"d", "blip", "detailed", none, false, 150⟩ (fun _ => .malformed)
        (fun _ => ⟨.completed 0 "hi" "", true⟩) 1 0
        ⟨fun n => if n = "a.txt" then some "old" else none, [], [], [], [], [], []⟩ "a.jpg").failed = [] ∧
      (processImage ⟨"d", "blip", "detailed", none, false, 150⟩ (fun _ => .malformed)
        (fun _ => ⟨.completed 0 "hi" "", true⟩) 1 0
        ⟨fun n => if n = "a.txt" then some "old" else none, [], [], [], [], [], []⟩ "a.jpg").spawned = []) :=
  ⟨⟨rfl, by decide⟩,
    (C3_skip_policy ⟨"d", "blip", "detailed", none, false, 150⟩ (fun _ => .malformed)
      (fun _ => ⟨.completed 0 "hi" "", true⟩) 1 0
      ⟨fun n => if n = "a.txt" then some "old" else none, [], [], [], [], [], []⟩ "a.jpg").1
      ⟨rfl, by decide⟩⟩

/-- Claim C8: discovery on an existing folder returns exactly the regular
files directly inside it whose lower-cased extension is in the fixed
supported set, sorted by name; on a missing path it fails with the
folder-not-found error. -/
theorem C8_discovery (folder : Folder) (src : String) :
    (folder.present = false →
      find_image_files folder src = .error ("Source folder does not exist: " ++ src)) ∧
    (folder.present = true →
      ∃ l, find_image_files folder src = .ok l ∧
        l.Perm ((folder.entries.filter eligibleEntry).map DirEntry.name) ∧
        List.Sorted nameLe l ∧
        ∀ x, x ∈ l ↔ ∃ e, e ∈ folder.entries ∧ e.name = x ∧ e.isFile = true ∧
          IMAGE_EXTENSIONS.contains (pyLower (pySuffix x)) = true) := by
  constructor
  · intro h
    simp [find_image_files, h]
  · intro h
    refine ⟨sortNames ((folder.entries.filter eligibleEntry).map DirEntry.name),
      by simp [find_image_files, h], List.perm_insertionSort nameLe _,
      List.sorted_insertionSort nameLe _, ?_⟩
    intro x
    simp only [sortNames, List.mem_insertionSort, List.mem_map, List.mem_filter]
    constructor
    · rintro ⟨e, ⟨he, hel⟩, rfl⟩
      rw [eligibleEntry, Bool.and_eq_true] at hel
      exact ⟨e, he, rfl, hel.1, hel.2⟩
    · rintro ⟨e, he, rfl, hf, hc⟩
      exact ⟨e, ⟨he, by rw [eligibleEntry, Bool.and_eq_true]; exact ⟨hf, hc⟩⟩, rfl⟩

/-- Concrete instance of C8: a folder holding an eligible image, an
ineligible text file and a subdirectory. -/
theorem C8_witness :
    (Folder.mk true [⟨"b.jpg", true⟩, ⟨"a.PNG", true⟩, ⟨"c.txt", true⟩, ⟨"sub.jpg", false⟩]).present = true ∧
    ∃ l, find_image_files ⟨true, [⟨"b.jpg", true⟩, ⟨"a.PNG", true⟩, ⟨"c.txt", true⟩, ⟨"sub.jpg", false⟩]⟩ "src" = .ok l ∧
      l.Perm (((Folder.mk true [⟨"b.jpg", true⟩, ⟨"a.PNG", true⟩, ⟨"c.txt", true⟩, ⟨"sub.jpg", false⟩]).entries.filter
        eligibleEntry).map DirEntry.name) ∧
      List.Sorted nameLe l ∧
      ∀ x, x ∈ l ↔ ∃ e, e ∈ (Folder.mk true [⟨"b.jpg", true⟩, ⟨"a.PNG", true⟩, ⟨"c.txt", true⟩, ⟨"sub.jpg", false⟩]).entries ∧
        e.name = x ∧ e.isFile = true ∧ IMAGE_EXTENSIONS.contains (pyLower (pySuffix x)) = true :=
  ⟨rfl, (C8_discovery ⟨true, [⟨"b.jpg", true⟩, ⟨"a.PNG", true⟩, ⟨"c.txt", true⟩, ⟨"sub.jpg", false⟩]⟩ "src").2 rfl⟩

/-! Field-level characterizations of the four branches of the loop body. -/

/-- Branch: overwrite off and sidecar present — the image is skipped. -/
theorem processImage_skip_fields (args : Args) (jparse : String → JsonParse) (env : String → ImgEnv)
    (total i : Nat) (st : RunState) (name : String)
    (hskip : (!args.overwrite && caption_exists st.store name) = true) :
    (processImage args jparse env total i st name).processed = st.processed ∧
    (processImage args jparse env total i st name).skipped = st.skipped ++ [name] ∧
    (processImage args jparse env total i st name).failed = st.failed ∧
    (processImage args jparse env total i st name).saveCalled = st.saveCalled ∧
    (processImage args jparse env total i st name).store = st.store ∧
    (processImage args jparse env total i st name).spawned = st.spawned := by
  simp only [processImage]
  split_ifs <;> simp_all

/-- Branch: dispatched, caption classified good, sidecar write succeeds. -/
theorem processImage_success_fields (args : Args) (jparse : String → JsonParse) (env : String → ImgEnv)
    (total i : Nat) (st : RunState) (name : String)
    (hdisp : (!args.overwrite && caption_exists st.store name) = false)
    (hcl : (generate_caption_for_image args.model jparse (env name).proc != "" &&
      !(pyStarts (generate_caption_for_image args.model jparse (env name).proc) "Error")) = true)
    (hsv : (env name).saveOk = true) :
    (processImage args jparse env total i st name).processed = st.processed ++ [name] ∧
    (processImage args jparse env total i st name).skipped = st.skipped ∧
    (processImage args jparse env total i st name).failed = st.failed ∧
    (processImage args jparse env total i st name).saveCalled = st.saveCalled ++ [name] ∧
    (processImage args jparse env total i st name).store =
      save_caption st.store name (generate_caption_for_image args.model jparse (env name).proc)
        args.template ∧
    (processImage args jparse env total i st name).spawned =
      (if SUPPORTED_MODELS.contains args.model then st.spawned ++ [name] else st.spawned) := by
  simp only [processImage]
  split_ifs <;> simp_all

/-- Branch: dispatched, caption classified good, but the sidecar write fails
(the per-image handler counts the image as failed; `save_caption` was called). -/
theorem processImage_savefail_fields (args : Args) (jparse : String → JsonParse) (env : String → ImgEnv)
    (total i : Nat) (st : RunState) (name : String)
    (hdisp : (!args.overwrite && caption_exists st.store name) = false)
    (hcl : (generate_caption_for_image args.model jparse (env name).proc != "" &&
      !(pyStarts (generate_caption_for_image args.model jparse (env name).proc) "Error")) = true)
    (hsv : (env name).saveOk = false) :
    (processImage args jparse env total i st name).processed = st.processed ∧
    (processImage args jparse env total i st name).skipped = st.skipped ∧
    (processImage args jparse env total i st name).failed = st.failed ++ [name] ∧
    (processImage args jparse env total i st name).saveCalled = st.saveCalled ++ [name] ∧
    (processImage args jparse env total i st name).store = st.store ∧
    (processImage args jparse env total i st name).spawned =
      (if SUPPORTED_MODELS.contains args.model then st.spawned ++ [name] else st.spawned) := by
  simp only [processImage]
  split_ifs <;> simp_all

/-- Branch: dispatched, caption classified bad (empty or error marker) — the
image is counted as failed and `save_caption` is not called. -/
theorem processImage_badcap_fields (args : Args) (jparse : String → JsonParse) (env : String → ImgEnv)
    (total i : Nat) (st : RunState) (name : String)
    (hdisp : (!args.overwrite && caption_exists st.store name) = false)
    (hcl : (generate_caption_for_image args.model jparse (env name).proc != "" &&
      !(pyStarts (generate_caption_for_image args.model jparse (env name).proc) "Error")) = false) :
    (processImage args jparse env total i st name).processed = st.processed ∧
    (processImage args jparse env total i st name).skipped = st.skipped ∧
    (processImage args jparse env total i st name).failed = st.failed ++ [name] ∧
    (processImage args jparse env total i st name).saveCalled = st.saveCalled ∧
    (processImage args jparse env total i st name).store = st.store ∧
    (processImage args jparse env total i st name).spawned =
      (if SUPPORTED_MODELS.contains args.model then st.spawned ++ [name] else st.spawned) := by
  simp only [processImage]
  split_ifs <;> simp_all

/-- The failed list only grows across a loop body run. -/
theorem processImage_failed_mono (args : Args) (jparse : String → JsonParse) (env : String → ImgEnv)
    (total i : Nat) (st : RunState) (name x : String)
    (h : x ∈ st.failed) : x ∈ (processImage args jparse env total i st name).failed := by
  rcases processImage_tri args jparse env total i st name _ rfl with
    ⟨_, _, h3⟩ | ⟨_, _, h3⟩ | ⟨_, _, h3⟩ <;> rw [h3] <;> simp [h]

/-- The failed list only grows across the whole loop. -/
theorem runLoop_failed_mono (args : Args) (jparse : String → JsonParse) (env : String → ImgEnv)
    (total : Nat) :
    ∀ (l : List String) (i : Nat) (st : RunState) (x : String),
      x ∈ st.failed → x ∈ (runLoop args jparse env total i st l).failed
  | [], _, _, _, h => h
  | n :: rest, i, st, x, h =>
    runLoop_failed_mono args jparse env total rest (i + 1) _ x
      (processImage_failed_mono args jparse env total i st n x h)

/-- A dispatched image whose caption fails classification lands in the failed list. -/
theorem processImage_fail_step (args : Args) (jparse : String → JsonParse) (env : String → ImgEnv)
    (total i : Nat) (st : RunState) (name : String)
    (hdisp : (!args.overwrite && caption_exists st.store name) = false)
    (hbad : (generate_caption_for_image args.model jparse (env name).proc != "" &&
      !(pyStarts (generate_caption_for_image args.model jparse (env name).proc) "Error")) = false) :
    name ∈ (processImage args jparse env total i st name).failed := by
  rcases processImage_badcap_fields args jparse env total i st name hdisp hbad with
    ⟨_, _, h3, _, _, _⟩
  rw [h3]
  simp

/-- With overwrite enabled, an image of the run whose caption fails
classification ends up in the failed list of the final state. -/
theorem runLoop_fail_mem (args : Args) (jparse : String → JsonParse) (env : String → ImgEnv)
    (total : Nat) (hov : args.overwrite = true) (name : String)
    (hbad : (generate_caption_for_image args.model jparse (env name).proc != "" &&
      !(pyStarts (generate_caption_for_image args.model jparse (env name).proc) "Error")) = false) :
    ∀ (l : List String) (i : Nat) (st : RunState),
      name ∈ l → name ∈ (runLoop args jparse env total i st l).failed
  | [], _, _, hmem => absurd hmem (List.not_mem_nil _)
  | n :: rest, i, st, hmem => by
    simp only [runLoop]
    rcases List.mem_cons.mp hmem with rfl | h
    · exact runLoop_failed_mono args jparse env total rest (i + 1) _ name
        (processImage_fail_step args jparse env total i st name (by simp [hov]) hbad)
    · exact runLoop_fail_mem args jparse env total hov name hbad rest (i + 1) _ h

/-- When discovery finds at least one image, the run emits a summary event
carrying the discovered total. -/
theorem runBatch_summary_mem (args : Args) (folder : Folder) (store0 : String → Option String)
    (jparse : String → JsonParse) (env : String → ImgEnv) (n : String) (ns : List String)
    (hfind : find_image_files folder args.source_folder = .ok (n :: ns)) :
    ∃ p s f pf, Event.summary (n :: ns).length p s f pf ∈
      (runBatch args folder store0 jparse env).state.events := by
  have hmem : ∀ (a b : Event) (l : List Event), a ∈ l ++ [a, b] := by
    intro a b l
    simp
  simp only [runBatch, hfind]
  exact ⟨_, _, _, _, hmem _ _ _⟩

/-- Claim C2, amended: for a dispatched image whose invocation completed with
exit code 0, the image is classified processed if and only if the returned
text is non-empty, does not start with the reserved `"Error"` marker, and
the sidecar write succeeds; in that case the caption is persisted to the
sidecar path with the template applied when one is configured.  (The claim
as frozen omits the non-emptiness and write-success conditions.) -/
theorem C2_success_classification (args : Args) (jparse : String → JsonParse)
    (env : String → ImgEnv) (total i : Nat) (st : RunState) (name out err : String)
    (hm : SUPPORTED_MODELS.contains args.model = true)
    (hproc : (env name).proc = .completed 0 out err)
    (hdisp : (!args.overwrite && caption_exists st.store name) = false) :
    ((processImage args jparse env total i st name).processed = st.processed ++ [name] ↔
      (generate_caption_for_image args.model jparse (env name).proc ≠ "" ∧
        pyStarts (generate_caption_for_image args.model jparse (env name).proc) "Error" = false ∧
        (env name).saveOk = true)) ∧
    (generate_caption_for_image args.model jparse (env name).proc ≠ "" →
      pyStarts (generate_caption_for_image args.model jparse (env name).proc) "Error" = false →
      (env name).saveOk = true →
      (processImage args jparse env total i st name).store (withSuffixTxt name) =
        some (applyTemplate args.template
          (generate_caption_for_image args.model jparse (env name).proc))) := by
  by_cases hcl : (generate_caption_for_image args.model jparse (env name).proc != "" &&
      !(pyStarts (generate_caption_for_image args.model jparse (env name).proc) "Error")) = true
  · have hcl' : generate_caption_for_image args.model jparse (env name).proc ≠ "" ∧
        pyStarts (generate_caption_for_image args.model jparse (env name).proc) "Error" = false := by
      simpa using hcl
    by_cases hsv : (env name).saveOk = true
    · rcases processImage_success_fields args jparse env total i st name hdisp hcl hsv with
        ⟨h1, _, _, _, h5, _⟩
      refine ⟨⟨fun _ => ⟨hcl'.1, hcl'.2, hsv⟩, fun _ => h1⟩, fun _ _ _ => ?_⟩
      rw [h5, save_caption]
      simp
    · have hsv' : (env name).saveOk = false := by
        cases h : (env name).saveOk
        · rfl
        · exact absurd h hsv
      rcases processImage_savefail_fields args jparse env total i st name hdisp hcl hsv' with
        ⟨h1, _, _, _, _, _⟩
      refine ⟨⟨fun hp => ?_, fun h => absurd h.2.2 hsv⟩, fun _ _ h => absurd h hsv⟩
      rw [h1] at hp
      have := congrArg List.length hp
      simp at this
  · have hcl0 : (generate_caption_for_image args.model jparse (env name).proc != "" &&
        !(pyStarts (generate_caption_for_image args.model jparse (env name).proc) "Error")) = false := by
      cases h : (generate_caption_for_image args.model jparse (env name).proc != "" &&
        !(pyStarts (generate_caption_for_image args.model jparse (env name).proc) "Error"))
      · rfl
      · exact absurd h hcl
    have hcl' : ¬ (generate_caption_for_image args.model jparse (env name).proc ≠ "" ∧
        pyStarts (generate_caption_for_image args.model jparse (env name).proc) "Error" = false) := by
      intro h
      exact hcl (by simp [h.1, h.2])
    rcases processImage_badcap_fields args jparse env total i st name hdisp hcl0 with
      ⟨h1, _, _, _, _, _⟩
    refine ⟨⟨fun hp => ?_, fun h => absurd ⟨h.1, h.2.1⟩ hcl'⟩,
      fun hne hmark _ => absurd ⟨hne, hmark⟩ hcl'⟩
    rw [h1] at hp
    have := congrArg List.length hp
    simp at this

/-- Concrete instance of C2 (amended): a blip run returning the text
`"a cat"` with exit code 0 is classified processed and the caption is
persisted through the configured template. -/
theorem C2_witness :
    SUPPORTED_MODELS.contains "blip" = true ∧
    ((fun _ : String => (⟨.completed 0 "a cat" "", true⟩ : ImgEnv)) "a.jpg").proc =
      .completed 0 "a cat" "" ∧
    (!(false : Bool) && caption_exists (fun _ => none) "a.jpg") = false ∧
    ((processImage ⟨"d", "blip", "detailed", some "Photo of \x7bcaption\x7d", false, 150⟩
        (fun _ => .malformed) (fun _ => ⟨.completed 0 "a cat" "", true⟩) 1 0
        ⟨fun _ => none, [], [], [], [], [], []⟩ "a.jpg").processed = [] ++ ["a.jpg"] ↔
      (generate_caption_for_image "blip" (fun _ => .malformed)
          ((fun _ : String => (⟨.completed 0 "a cat" "", true⟩ : ImgEnv)) "a.jpg").proc ≠ "" ∧
        pyStarts (generate_caption_for_image "blip" (fun _ => .malformed)
          ((fun _ : String => (⟨.completed 0 "a cat" "", true⟩ : ImgEnv)) "a.jpg").proc) "Error" = false ∧
        ((fun _ : String => (⟨.completed 0 "a cat" "", true⟩ : ImgEnv)) "a.jpg").saveOk = true)) :=
  ⟨by decide, rfl, by decide,
    ((C2_success_classification ⟨"d", "blip", "detailed", some "Photo of \x7bcaption\x7d", false, 150⟩
      (fun _ => .malformed) (fun _ => ⟨.completed 0 "a cat" "", true⟩) 1 0
      ⟨fun _ => none, [], [], [], [], [], []⟩ "a.jpg" "a cat" ""
      (by decide) rfl (by decide)).1)⟩

/-- Counterexample to claim C2 as frozen: a backend completing with exit
code 0 and empty stdout yields the empty caption, which does not start with
the error marker, yet the image is classified failed, not processed. -/
theorem C2_counterexample :
    generate_caption_for_image "blip" (fun _ => .malformed) (.completed 0 "" "x") = "" ∧
    pyStarts (generate_caption_for_image "blip" (fun _ => .malformed) (.completed 0 "" "x"))
      "Error" = false ∧
    (processImage ⟨"d", "blip", "detailed", none, true, 150⟩ (fun _ => .malformed)
      (fun _ => ⟨.completed 0 "" "x", true⟩) 1 0
      ⟨fun _ => none, [], [], [], [], [], []⟩ "a.jpg").processed = [] ∧
    (processImage ⟨"d", "blip", "detailed", none, true, 150⟩ (fun _ => .malformed)
      (fun _ => ⟨.completed 0 "" "x", true⟩) 1 0
      ⟨fun _ => none, [], [], [], [], [], []⟩ "a.jpg").failed = ["a.jpg"] := by
  refine ⟨by decide, by decide, by decide, by decide⟩

/-- Claim C4: a timed-out invocation returns the timeout error string (no
exception escapes to the loop), the image is classified failed, and the run
still completes, emitting a summary event and exiting with code 0. -/
theorem C4_timeout (args : Args) (folder : Folder) (store0 : String → Option String)
    (jparse : String → JsonParse) (env : String → ImgEnv) (names : List String) (name : String)
    (hsup : SUPPORTED_MODELS.contains args.model = true)
    (hov : args.overwrite = true)
    (hfind : find_image_files folder args.source_folder = .ok names)
    (hmem : name ∈ names)
    (hproc : (env name).proc = .timedOut) :
    generate_caption_for_image args.model jparse (env name).proc =
      "Error: Caption generation timed out" ∧
    name ∈ (runBatch args folder store0 jparse env).state.failed ∧
    (∃ p s f pf, Event.summary names.length p s f pf ∈
      (runBatch args folder store0 jparse env).state.events) ∧
    (runBatch args folder store0 jparse env).exitCode = 0 := by
  have hsup' : args.model ∈ SUPPORTED_MODELS := by simpa using hsup
  have hcap : generate_caption_for_image args.model jparse (env name).proc =
      "Error: Caption generation timed out" := by
    rw [hproc]
    simp [generate_caption_for_image, hsup']
  have hbad : (generate_caption_for_image args.model jparse (env name).proc != "" &&
      !(pyStarts (generate_caption_for_image args.model jparse (env name).proc) "Error")) = false := by
    rw [hcap]
    decide
  obtain ⟨n, ns, rfl⟩ : ∃ n ns, names = n :: ns := by
    cases names with
    | nil => exact absurd hmem (List.not_mem_nil _)
    | cons n ns => exact ⟨n, ns, rfl⟩
  refine ⟨hcap, ?_, ?_, ?_⟩
  · simp only [runBatch, hfind]
    exact runLoop_fail_mem args jparse env (n :: ns).length hov name hbad (n :: ns) 0 _ hmem
  · exact runBatch_summary_mem args folder store0 jparse env n ns hfind
  · simp only [runBatch, hfind]

/-- Concrete instance of C4: a single-image run whose backend times out. -/
theorem C4_witness :
    SUPPORTED_MODELS.contains "blip" = true ∧
    (⟨"d", "blip", "detailed", none, true, 150⟩ : Args).overwrite = true ∧
    find_image_files ⟨true, [⟨"a.jpg", true⟩]⟩ "d" = .ok ["a.jpg"] ∧
    "a.jpg" ∈ (["a.jpg"] : List String) ∧
    ((fun _ : String => (⟨.timedOut, true⟩ : ImgEnv)) "a.jpg").proc = .timedOut ∧
    (generate_caption_for_image "blip" (fun _ => .malformed)
        ((fun _ : String => (⟨.timedOut, true⟩ : ImgEnv)) "a.jpg").proc =
      "Error: Caption generation timed out" ∧
    "a.jpg" ∈ (runBatch ⟨"d", "blip", "detailed", none, true, 150⟩ ⟨true, [⟨"a.jpg", true⟩]⟩
      (fun _ => none) (fun _ => .malformed) (fun _ => ⟨.timedOut, true⟩)).state.failed ∧
    (∃ p s f pf, Event.summary (["a.jpg"] : List String).length p s f pf ∈
      (runBatch ⟨"d", "blip", "detailed", none, true, 150⟩ ⟨true, [⟨"a.jpg", true⟩]⟩
        (fun _ => none) (fun _ => .malformed) (fun _ => ⟨.timedOut, true⟩)).state.events) ∧
    (runBatch ⟨"d", "blip", "detailed", none, true, 150⟩ ⟨true, [⟨"a.jpg", true⟩]⟩
      (fun _ => none) (fun _ => .malformed) (fun _ => ⟨.timedOut, true⟩)).exitCode = 0) :=
  ⟨by decide, rfl, rfl, by decide, rfl,
    C4_timeout ⟨"d", "blip", "detailed", none, true, 150⟩ ⟨true, [⟨"a.jpg", true⟩]⟩
      (fun _ => none) (fun _ => .malformed) (fun _ => ⟨.timedOut, true⟩) ["a.jpg"] "a.jpg"
      (by decide) rfl rfl (by decide) rfl⟩

/-- Claim C5, amended: on the florence-2 path, exit code 0 with stdout that
does not parse as JSON makes the raw stripped output the caption; the image
is then classified processed provided that text is non-empty, does not start
with the reserved error marker, and the sidecar write succeeds.  (The claim
as frozen asserts the processed classification unconditionally, which fails
for empty or marker-prefixed raw output.) -/
theorem C5_florence_fallback (args : Args) (jparse : String → JsonParse) (env : String → ImgEnv)
    (total i : Nat) (st : RunState) (name out err : String)
    (hm : args.model = "florence-2")
    (hproc : (env name).proc = .completed 0 out err)
    (hjp : jparse (pyStrip out) = .malformed)
    (hdisp : (!args.overwrite && caption_exists st.store name) = false)
    (hne : pyStrip out ≠ "")
    (hmark : pyStarts (pyStrip out) "Error" = false)
    (hsv : (env name).saveOk = true) :
    generate_caption_for_image args.model jparse (env name).proc = pyStrip out ∧
    (processImage args jparse env total i st name).processed = st.processed ++ [name] ∧
    (processImage args jparse env total i st name).store (withSuffixTxt name) =
      some (applyTemplate args.template (pyStrip out)) := by
  have hcont : "florence-2" ∈ SUPPORTED_MODELS := by decide
  have hcap : generate_caption_for_image args.model jparse (env name).proc = pyStrip out := by
    rw [hproc, hm]
    simp [generate_caption_for_image, hjp, hcont]
  have hcl : (generate_caption_for_image args.model jparse (env name).proc != "" &&
      !(pyStarts (generate_caption_for_image args.model jparse (env name).proc) "Error")) = true := by
    rw [hcap]
    simp [hne, hmark]
  rcases processImage_success_fields args jparse env total i st name hdisp hcl hsv with
    ⟨h1, _, _, _, h5, _⟩
  refine ⟨hcap, h1, ?_⟩
  rw [h5, save_caption]
  simp [hcap]

/-- Concrete instance of C5 (amended): florence-2 exits 0 with the plain
text `"a dog  "`, whose stripped form fails JSON parsing, and the raw text
becomes the persisted caption. -/
theorem C5_witness :
    (⟨"d", "florence-2", "detailed", none, true, 150⟩ : Args).model = "florence-2" ∧
    ((fun _ : String => (⟨.completed 0 "a dog  " "", true⟩ : ImgEnv)) "a.jpg").proc =
      .completed 0 "a dog  " "" ∧
    (fun _ : String => JsonParse.malformed) (pyStrip "a dog  ") = .malformed ∧
    pyStrip "a dog  " ≠ "" ∧
    pyStarts (pyStrip "a dog  ") "Error" = false ∧
    (generate_caption_for_image "florence-2" (fun _ => .malformed)
        ((fun _ : String => (⟨.completed 0 "a dog  " "", true⟩ : ImgEnv)) "a.jpg").proc =
      pyStrip "a dog  " ∧
    (processImage ⟨"d", "florence-2", "detailed", none, true, 150⟩ (fun _ => .malformed)
      (fun _ => ⟨.completed 0 "a dog  " "", true⟩) 1 0
      ⟨fun _ => none, [], [], [], [], [], []⟩ "a.jpg").processed = [] ++ ["a.jpg"] ∧
    (processImage ⟨"d", "florence-2", "detailed", none, true, 150⟩ (fun _ => .malformed)
      (fun _ => ⟨.completed 0 "a dog  " "", true⟩) 1 0
      ⟨fun _ => none, [], [], [], [], [], []⟩ "a.jpg").store (withSuffixTxt "a.jpg") =
      some (applyTemplate none (pyStrip "a dog  "))) :=
  ⟨rfl, rfl, rfl, by decide, by decide,
    C5_florence_fallback ⟨"d", "florence-2", "detailed", none, true, 150⟩ (fun _ => .malformed)
      (fun _ => ⟨.completed 0 "a dog  " "", true⟩) 1 0
      ⟨fun _ => none, [], [], [], [], [], []⟩ "a.jpg" "a dog  " ""
      rfl rfl rfl (by decide) (by decide) (by decide) rfl⟩

/-- Counterexample to claim C5 as frozen: florence-2 exits 0 with empty
stdout (not parseable as JSON; `json.loads("")` raises), the raw stripped
output is the empty caption, and the image is classified failed — an
exit-code-0 invocation classified as a failure because of its output. -/
theorem C5_counterexample :
    generate_caption_for_image "florence-2" (fun _ => .malformed) (.completed 0 "" "") = "" ∧
    (processImage ⟨"d", "florence-2", "detailed", none, true, 150⟩ (fun _ => .malformed)
      (fun _ => ⟨.completed 0 "" "", true⟩) 1 0
      ⟨fun _ => none, [], [], [], [], [], []⟩ "a.jpg").processed = [] ∧
    (processImage ⟨"d", "florence-2", "detailed", none, true, 150⟩ (fun _ => .malformed)
      (fun _ => ⟨.completed 0 "" "", true⟩) 1 0
      ⟨fun _ => none, [], [], [], [], [], []⟩ "a.jpg").failed = ["a.jpg"] :=
  ⟨by decide, by decide, by decide⟩

/-- Claim C6, amended: a run whose discovery yields zero eligible images
emits exactly one event — the error event — and returns early with no loop
iteration and no summary; the process exit code is 0 (the code path is a
plain `return`, not `sys.exit(1)`).  (The claim as frozen asserts a
non-zero exit code.) -/
theorem C6_no_images (args : Args) (folder : Folder) (store0 : String → Option String)
    (jparse : String → JsonParse) (env : String → ImgEnv)
    (hfind : find_image_files folder args.source_folder = .ok []) :
    (runBatch args folder store0 jparse env).state.events =
      [Event.error ("No image files found in " ++ args.source_folder)] ∧
    (runBatch args folder store0 jparse env).exitCode = 0 ∧
    (∀ t p s f pf, Event.summary t p s f pf ∉ (runBatch args folder store0 jparse env).state.events) ∧
    (runBatch args folder store0 jparse env).state.processed = [] ∧
    (runBatch args folder store0 jparse env).state.skipped = [] ∧
    (runBatch args folder store0 jparse env).state.failed = [] := by
  simp only [runBatch, hfind]
  refine ⟨by trivial, by trivial, ?_, by trivial, by trivial, by trivial⟩
  intro t p s f pf
  simp

/-- Concrete instance of C6 (amended): an existing but imageless folder. -/
theorem C6_witness :
    find_image_files ⟨true, []⟩ "empty" = .ok [] ∧
    ((runBatch ⟨"empty", "florence-2", "detailed", none, false, 150⟩ ⟨true, []⟩ (fun _ => none)
        (fun _ => .malformed) (fun _ => ⟨.timedOut, true⟩)).state.events =
      [Event.error ("No image files found in " ++ "empty")] ∧
    (runBatch ⟨"empty", "florence-2", "detailed", none, false, 150⟩ ⟨true, []⟩ (fun _ => none)
      (fun _ => .malformed) (fun _ => ⟨.timedOut, true⟩)).exitCode = 0 ∧
    (∀ t p s f pf, Event.summary t p s f pf ∉
      (runBatch ⟨"empty", "florence-2", "detailed", none, false, 150⟩ ⟨true, []⟩ (fun _ => none)
        (fun _ => .malformed) (fun _ => ⟨.timedOut, true⟩)).state.events) ∧
    (runBatch ⟨"empty", "florence-2", "detailed", none, false, 150⟩ ⟨true, []⟩ (fun _ => none)
      (fun _ => .malformed) (fun _ => ⟨.timedOut, true⟩)).state.processed = [] ∧
    (runBatch ⟨"empty", "florence-2", "detailed", none, false, 150⟩ ⟨true, []⟩ (fun _ => none)
      (fun _ => .malformed) (fun _ => ⟨.timedOut, true⟩)).state.skipped = [] ∧
    (runBatch ⟨"empty", "florence-2", "detailed", none, false, 150⟩ ⟨true, []⟩ (fun _ => none)
      (fun _ => .malformed) (fun _ => ⟨.timedOut, true⟩)).state.failed = []) :=
  ⟨rfl, C6_no_images ⟨"empty", "florence-2", "detailed", none, false, 150⟩ ⟨true, []⟩ (fun _ => none)
    (fun _ => .malformed) (fun _ => ⟨.timedOut, true⟩) rfl⟩

/-- Counterexample to claim C6 as frozen: on a zero-image run the error
event is emitted, but the process exit code is 0 (the code returns without
calling `sys.exit(1)`), not non-zero as the claim states. -/
theorem C6_counterexample :
    (runBatch ⟨"empty", "blip", "detailed", none, false, 150⟩ ⟨true, []⟩ (fun _ => none)
      (fun _ => .malformed) (fun _ => ⟨.timedOut, true⟩)).state.events =
      [Event.error "No image files found in empty"] ∧
    (runBatch ⟨"empty", "blip", "detailed", none, false, 150⟩ ⟨true, []⟩ (fun _ => none)
      (fun _ => .malformed) (fun _ => ⟨.timedOut, true⟩)).exitCode = 0 :=
  ⟨by decide, by decide⟩

/-- With an unsupported backend identifier and overwrite enabled, the loop
fails every image, invokes nothing, and touches no other category. -/
theorem runLoop_unsupported (args : Args) (jparse : String → JsonParse) (env : String → ImgEnv)
    (total : Nat) (hm : SUPPORTED_MODELS.contains args.model = false)
    (hov : args.overwrite = true) :
    ∀ (l : List String) (i : Nat) (st : RunState),
      (runLoop args jparse env total i st l).failed = st.failed ++ l ∧
      (runLoop args jparse env total i st l).processed = st.processed ∧
      (runLoop args jparse env total i st l).skipped = st.skipped ∧
      (runLoop args jparse env total i st l).spawned = st.spawned
  | [], _, st => by simp [runLoop]
  | n :: rest, i, st => by
    simp only [runLoop]
    have hdisp : (!args.overwrite && caption_exists st.store n) = false := by simp [hov]
    have hbad : (generate_caption_for_image args.model jparse (env n).proc != "" &&
        !(pyStarts (generate_caption_for_image args.model jparse (env n).proc) "Error")) = false := by
      have hcap : generate_caption_for_image args.model jparse (env n).proc =
          "Error: Unsupported model: " ++ args.model := by
        have hm' : args.model ∉ SUPPORTED_MODELS := by simpa using hm
        simp [generate_caption_for_image, hm']
      have hpre : pyStarts ("Error: Unsupported model: " ++ args.model) "Error" = true :=
        pyStarts_append "Error: Unsupported model: " "Error" args.model (by decide)
      rw [hcap]
      simp [hpre]
    rcases processImage_badcap_fields args jparse env total i st n hdisp hbad with
      ⟨h1, h2, h3, _, _, h6⟩
    rcases runLoop_unsupported args jparse env total hm hov rest (i + 1)
      (processImage args jparse env total i st n) with ⟨g1, g2, g3, g4⟩
    rw [g1, g2, g3, g4, h1, h2, h3, h6, hm]
    refine ⟨by simp, rfl, rfl, by simp⟩

/-- Claim C7, amended: for an unsupported backend identifier the invoker
returns the unsupported-model error before any process is spawned, and every
dispatched image fails; when no image is skipped (here: overwrite enabled),
the summary reports `failed == total`.  (The claim as frozen asserts
`failed == total` for every run, which fails when an image is skipped by the
existing-sidecar policy.) -/
theorem C7_unsupported (args : Args) (folder : Folder) (store0 : String → Option String)
    (jparse : String → JsonParse) (env : String → ImgEnv) (names : List String)
    (hm : SUPPORTED_MODELS.contains args.model = false)
    (hov : args.overwrite = true)
    (hfind : find_image_files folder args.source_folder = .ok names)
    (hne : names ≠ []) :
    (∀ proc, generate_caption_for_image args.model jparse proc =
      "Error: Unsupported model: " ++ args.model) ∧
    (runBatch args folder store0 jparse env).state.spawned = [] ∧
    (runBatch args folder store0 jparse env).state.failed = names ∧
    (runBatch args folder store0 jparse env).state.processed = [] ∧
    (runBatch args folder store0 jparse env).state.skipped = [] ∧
    Event.summary names.length 0 0 names.length [] ∈
      (runBatch args folder store0 jparse env).state.events ∧
    (runBatch args folder store0 jparse env).exitCode = 0 := by
  obtain ⟨n, ns, rfl⟩ : ∃ n ns, names = n :: ns := by
    cases names with
    | nil => exact absurd rfl hne
    | cons n ns => exact ⟨n, ns, rfl⟩
  simp only [runBatch, hfind]
  rcases runLoop_unsupported args jparse env (n :: ns).length hm hov (n :: ns) 0
    { initState store0 with
      events := [.progress ("Found " ++ toString (n :: ns).length ++ " images to process")] }
    with ⟨g1, g2, g3, g4⟩
  have hm' : args.model ∉ SUPPORTED_MODELS := by simpa using hm
  refine ⟨fun proc => by simp [generate_caption_for_image, hm'], by rw [g4]; rfl,
    by rw [g1]; rfl, by rw [g2]; rfl, by rw [g3]; rfl, ?_, by trivial⟩
  rw [g1, g2, g3]
  simp [initState]

/-- Concrete instance of C7 (amended): a single-image overwrite run with the
unsupported identifier `"foo"`. -/
theorem C7_witness :
    SUPPORTED_MODELS.contains "foo" = false ∧
    (⟨"d", "foo", "detailed", none, true, 150⟩ : Args).overwrite = true ∧
    find_image_files ⟨true, [⟨"a.jpg", true⟩]⟩ "d" = .ok ["a.jpg"] ∧
    (["a.jpg"] : List String) ≠ [] ∧
    ((∀ proc, generate_caption_for_image "foo" (fun _ => .malformed) proc =
      "Error: Unsupported model: " ++ "foo") ∧
    (runBatch ⟨"d", "foo", "detailed", none, true, 150⟩ ⟨true, [⟨"a.jpg", true⟩]⟩ (fun _ => none)
      (fun _ => .malformed) (fun _ => ⟨.completed 0 "hi" "", true⟩)).state.spawned = [] ∧
    (runBatch ⟨"d", "foo", "detailed", none, true, 150⟩ ⟨true, [⟨"a.jpg", true⟩]⟩ (fun _ => none)
      (fun _ => .malformed) (fun _ => ⟨.completed 0 "hi" "", true⟩)).state.failed = ["a.jpg"] ∧
    (runBatch ⟨"d", "foo", "detailed", none, true, 150⟩ ⟨true, [⟨"a.jpg", true⟩]⟩ (fun _ => none)
      (fun _ => .malformed) (fun _ => ⟨.completed 0 "hi" "", true⟩)).state.processed = [] ∧
    (runBatch ⟨"d", "foo", "detailed", none, true, 150⟩ ⟨true, [⟨"a.jpg", true⟩]⟩ (fun _ => none)
      (fun _ => .malformed) (fun _ => ⟨.completed 0 "hi" "", true⟩)).state.skipped = [] ∧
    Event.summary (["a.jpg"] : List String).length 0 0 (["a.jpg"] : List String).length [] ∈
      (runBatch ⟨"d", "foo", "detailed", none, true, 150⟩ ⟨true, [⟨"a.jpg", true⟩]⟩ (fun _ => none)
        (fun _ => .malformed) (fun _ => ⟨.completed 0 "hi" "", true⟩)).state.events ∧
    (runBatch ⟨"d", "foo", "detailed", none, true, 150⟩ ⟨true, [⟨"a.jpg", true⟩]⟩ (fun _ => none)
      (fun _ => .malformed) (fun _ => ⟨.completed 0 "hi" "", true⟩)).exitCode = 0) :=
  ⟨by decide, rfl, rfl, by decide,
    C7_unsupported ⟨"d", "foo", "detailed", none, true, 150⟩ ⟨true, [⟨"a.jpg", true⟩]⟩
      (fun _ => none) (fun _ => .malformed) (fun _ => ⟨.completed 0 "hi" "", true⟩) ["a.jpg"]
      (by decide) rfl rfl (by decide)⟩

/-- Counterexample to claim C7 as frozen: with the unsupported identifier
`"foo"`, overwrite disabled and an existing sidecar, the single image is
skipped rather than failed, so the summary reports `failed = 0 ≠ 1 = total`. -/
theorem C7_counterexample :
    (runBatch ⟨"d", "foo", "detailed", none, false, 150⟩ ⟨true, [⟨"a.jpg", true⟩]⟩
      (fun n => if n = "a.txt" then some "old" else none) (fun _ => .malformed)
      (fun _ => ⟨.completed 0 "hi" "", true⟩)).state.failed = [] ∧
    (runBatch ⟨"d", "foo", "detailed", none, false, 150⟩ ⟨true, [⟨"a.jpg", true⟩]⟩
      (fun n => if n = "a.txt" then some "old" else none) (fun _ => .malformed)
      (fun _ => ⟨.completed 0 "hi" "", true⟩)).state.skipped = ["a.jpg"] ∧
    Event.summary 1 0 1 0 [] ∈
      (runBatch ⟨"d", "foo", "detailed", none, false, 150⟩ ⟨true, [⟨"a.jpg", true⟩]⟩
        (fun n => if n = "a.txt" then some "old" else none) (fun _ => .malformed)
        (fun _ => ⟨.completed 0 "hi" "", true⟩)).state.events :=
  ⟨by decide, by decide, by decide⟩

/-- Claim C9, amended: florence-2 exiting 0 whose stdout parses as a JSON
object with no `caption` key yields the literal `"No caption generated"` as
caption; provided the sidecar write succeeds, the image is classified
processed and that placeholder text is persisted, through the template when
one is configured.  (The claim as frozen asserts the classification and the
persistence unconditionally, which fails when the write itself raises: the
per-image handler then counts the image as failed and nothing is written.) -/
theorem C9_missing_caption_key (args : Args) (jparse : String → JsonParse) (env : String → ImgEnv)
    (total i : Nat) (st : RunState) (name out err : String)
    (hm : args.model = "florence-2")
    (hproc : (env name).proc = .completed 0 out err)
    (hjp : jparse (pyStrip out) = .obj none)
    (hdisp : (!args.overwrite && caption_exists st.store name) = false)
    (hsv : (env name).saveOk = true) :
    generate_caption_for_image args.model jparse (env name).proc = "No caption generated" ∧
    (processImage args jparse env total i st name).processed = st.processed ++ [name] ∧
    (processImage args jparse env total i st name).store (withSuffixTxt name) =
      some (applyTemplate args.template "No caption generated") ∧
    (args.template = none →
      (processImage args jparse env total i st name).store (withSuffixTxt name) =
        some "No caption generated") := by
  have hcont : "florence-2" ∈ SUPPORTED_MODELS := by decide
  have hcap : generate_caption_for_image args.model jparse (env name).proc =
      "No caption generated" := by
    rw [hproc, hm]
    simp [generate_caption_for_image, hjp, hcont]
  have hcl : (generate_caption_for_image args.model jparse (env name).proc != "" &&
      !(pyStarts (generate_caption_for_image args.model jparse (env name).proc) "Error")) = true := by
    rw [hcap]
    decide
  rcases processImage_success_fields args jparse env total i st name hdisp hcl hsv with
    ⟨h1, _, _, _, h5, _⟩
  have hstore : (processImage args jparse env total i st name).store (withSuffixTxt name) =
      some (applyTemplate args.template "No caption generated") := by
    rw [h5, save_caption]
    simp [hcap]
  exact ⟨hcap, h1, hstore, fun ht => by rw [hstore, ht]; rfl⟩

/-- Concrete instance of C9: florence-2 returns the JSON object text
`"\x7b\x7d"` (parsed: object, no caption key), no template configured. -/
theorem C9_witness :
    (⟨"d", "florence-2", "detailed", none, true, 150⟩ : Args).model = "florence-2" ∧
    ((fun _ : String => (⟨.completed 0 "\x7b\x7d" "", true⟩ : ImgEnv)) "a.jpg").proc =
      .completed 0 "\x7b\x7d" "" ∧
    (fun _ : String => JsonParse.obj none) (pyStrip "\x7b\x7d") = .obj none ∧
    (generate_caption_for_image "florence-2" (fun _ => .obj none)
        ((fun _ : String => (⟨.completed 0 "\x7b\x7d" "", true⟩ : ImgEnv)) "a.jpg").proc =
      "No caption generated" ∧
    (processImage ⟨"d", "florence-2", "detailed", none, true, 150⟩ (fun _ => .obj none)
      (fun _ => ⟨.completed 0 "\x7b\x7d" "", true⟩) 1 0
      ⟨fun _ => none, [], [], [], [], [], []⟩ "a.jpg").processed = [] ++ ["a.jpg"] ∧
    (processImage ⟨"d", "florence-2", "detailed", none, true, 150⟩ (fun _ => .obj none)
      (fun _ => ⟨.completed 0 "\x7b\x7d" "", true⟩) 1 0
      ⟨fun _ => none, [], [], [], [], [], []⟩ "a.jpg").store (withSuffixTxt "a.jpg") =
      some (applyTemplate none "No caption generated") ∧
    ((⟨"d", "florence-2", "detailed", none, true, 150⟩ : Args).template = none →
      (processImage ⟨"d", "florence-2", "detailed", none, true, 150⟩ (fun _ => .obj none)
        (fun _ => ⟨.completed 0 "\x7b\x7d" "", true⟩) 1 0
        ⟨fun _ => none, [], [], [], [], [], []⟩ "a.jpg").store (withSuffixTxt "a.jpg") =
        some "No caption generated")) :=
  ⟨rfl, rfl, rfl,
    C9_missing_caption_key ⟨"d", "florence-2", "detailed", none, true, 150⟩ (fun _ => .obj none)
      (fun _ => ⟨.completed 0 "\x7b\x7d" "", true⟩) 1 0
      ⟨fun _ => none, [], [], [], [], [], []⟩ "a.jpg" "\x7b\x7d" ""
      rfl rfl rfl (by decide) rfl⟩

/-- Counterexample to claim C9 as frozen: florence-2 exits 0 with a JSON
object lacking the `caption` key, so the caption is the placeholder text,
but the sidecar write raises — the image is classified failed, not
processed, and nothing is persisted (the sidecar key stays absent). -/
theorem C9_counterexample :
    generate_caption_for_image "florence-2" (fun _ => .obj none) (.completed 0 "\x7b\x7d" "") =
      "No caption generated" ∧
    (processImage ⟨"d", "florence-2", "detailed", none, true, 150⟩ (fun _ => .obj none)
      (fun _ => ⟨.completed 0 "\x7b\x7d" "", false⟩) 1 0
      ⟨fun _ => none, [], [], [], [], [], []⟩ "a.jpg").processed = [] ∧
    (processImage ⟨"d", "florence-2", "detailed", none, true, 150⟩ (fun _ => .obj none)
      (fun _ => ⟨.completed 0 "\x7b\x7d" "", false⟩) 1 0
      ⟨fun _ => none, [], [], [], [], [], []⟩ "a.jpg").failed = ["a.jpg"] ∧
    (processImage ⟨"d", "florence-2", "detailed", none, true, 150⟩ (fun _ => .obj none)
      (fun _ => ⟨.completed 0 "\x7b\x7d" "", false⟩) 1 0
      ⟨fun _ => none, [], [], [], [], [], []⟩ "a.jpg").store (withSuffixTxt "a.jpg") = none :=
  ⟨by decide, by decide, by decide, by decide⟩

/-- Claim C10, amended: `save_caption` is never called for a skipped image or
for an image whose caption fails classification, and their sidecar store is
untouched; for an image whose caption passes classification `save_caption`
is called, the image is processed exactly when the write succeeds (touching
no key other than its own sidecar path), and when the write fails the image
is counted failed even though `save_caption` was called.  (The claim as
frozen says save is never called for any failed image, which the
write-failure case refutes.) -/
theorem C10_save_frame (args : Args) (jparse : String → JsonParse) (env : String → ImgEnv)
    (total i : Nat) (st : RunState) (name : String) :
    ((!args.overwrite && caption_exists st.store name) = true →
      (processImage args jparse env total i st name).saveCalled = st.saveCalled ∧
      (processImage args jparse env total i st name).store = st.store) ∧
    ((!args.overwrite && caption_exists st.store name) = false →
      ((generate_caption_for_image args.model jparse (env name).proc != "" &&
          !(pyStarts (generate_caption_for_image args.model jparse (env name).proc) "Error")) = false →
        (processImage args jparse env total i st name).saveCalled = st.saveCalled ∧
        (processImage args jparse env total i st name).store = st.store ∧
        (processImage args jparse env total i st name).failed = st.failed ++ [name]) ∧
      ((generate_caption_for_image args.model jparse (env name).proc != "" &&
          !(pyStarts (generate_caption_for_image args.model jparse (env name).proc) "Error")) = true →
        (processImage args jparse env total i st name).saveCalled = st.saveCalled ++ [name] ∧
        ((env name).saveOk = true →
          (processImage args jparse env total i st name).processed = st.processed ++ [name] ∧
          ∀ k, k ≠ withSuffixTxt name →
            (processImage args jparse env total i st name).store k = st.store k) ∧
        ((env name).saveOk = false →
          (processImage args jparse env total i st name).failed = st.failed ++ [name] ∧
          (processImage args jparse env total i st name).store = st.store))) := by
  refine ⟨fun hskip => ?_, fun hdisp => ⟨fun hbad => ?_, fun hcl => ?_⟩⟩
  · rcases processImage_skip_fields args jparse env total i st name hskip with
      ⟨_, _, _, h4, h5, _⟩
    exact ⟨h4, h5⟩
  · rcases processImage_badcap_fields args jparse env total i st name hdisp hbad with
      ⟨_, _, h3, h4, h5, _⟩
    exact ⟨h4, h5, h3⟩
  · refine ⟨?_, fun hsv => ?_, fun hsv => ?_⟩
    · cases hsv : (env name).saveOk
      · rcases processImage_savefail_fields args jparse env total i st name hdisp hcl hsv with
          ⟨_, _, _, h4, _, _⟩
        exact h4
      · rcases processImage_success_fields args jparse env total i st name hdisp hcl hsv with
          ⟨_, _, _, h4, _, _⟩
        exact h4
    · rcases processImage_success_fields args jparse env total i st name hdisp hcl hsv with
        ⟨h1, _, _, _, h5, _⟩
      refine ⟨h1, fun k hk => ?_⟩
      rw [h5, save_caption]
      simp [hk]
    · rcases processImage_savefail_fields args jparse env total i st name hdisp hcl hsv with
        ⟨_, _, h3, _, h5, _⟩
      exact ⟨h3, h5⟩

/-- Concrete instance of C10 (amended): the skip half — an image with an
existing sidecar, overwrite disabled: save is not called and the store is
untouched. -/
theorem C10_witness :
    (!(⟨"d", "blip", "detailed", none, false, 150⟩ : Args).overwrite &&
      caption_exists (fun n => if n = "a.txt" then some "old" else none) "a.jpg") = true ∧
    ((processImage ⟨"d", "blip", "detailed", none, false, 150⟩ (fun _ => .malformed)
        (fun _ => ⟨.completed 0 "hi" "", true⟩) 1 0
        ⟨fun n => if n = "a.txt" then some "old" else none, [], [], [], [], [], []⟩ "a.jpg").saveCalled = [] ∧
      (processImage ⟨"d", "blip", "detailed", none, false, 150⟩ (fun _ => .malformed)
        (fun _ => ⟨.completed 0 "hi" "", true⟩) 1 0
        ⟨fun n => if n = "a.txt" then some "old" else none, [], [], [], [], [], []⟩ "a.jpg").store =
        (fun n => if n = "a.txt" then some "old" else none)) :=
  ⟨by decide,
    (C10_save_frame ⟨"d", "blip", "detailed", none, false, 150⟩ (fun _ => .malformed)
      (fun _ => ⟨.completed 0 "hi" "", true⟩) 1 0
      ⟨fun n => if n = "a.txt" then some "old" else none, [], [], [], [], [], []⟩ "a.jpg").1
      (by decide)⟩

/-- Counterexample to claim C10 as frozen: a sidecar write failure — the
caption `"hi"` passes classification, `save_caption` is called, the write
raises, and the image ends in the failed category with save having been
called for it. -/
theorem C10_counterexample :
    (processImage ⟨"d", "blip", "detailed", none, true, 150⟩ (fun _ => .malformed)
      (fun _ => ⟨.completed 0 "hi" "", false⟩) 1 0
      ⟨fun n => if n = "a.txt" then some "old" else none, [], [], [], [], [], []⟩ "a.jpg").failed =
      ["a.jpg"] ∧
    (processImage ⟨"d", "blip", "detailed", none, true, 150⟩ (fun _ => .malformed)
      (fun _ => ⟨.completed 0 "hi" "", false⟩) 1 0
      ⟨fun n => if n = "a.txt" then some "old" else none, [], [], [], [], [], []⟩ "a.jpg").saveCalled =
      ["a.jpg"] ∧
    (processImage ⟨"d", "blip", "detailed", none, true, 150⟩ (fun _ => .malformed)
      (fun _ => ⟨.completed 0 "hi" "", false⟩) 1 0
      ⟨fun n => if n = "a.txt" then some "old" else none, [], [], [], [], [], []⟩ "a.jpg").processed =
      [] ∧
    (processImage ⟨"d", "blip", "detailed", none, true, 150⟩ (fun _ => .malformed)
      (fun _ => ⟨.completed 0 "hi" "", false⟩) 1 0
      ⟨fun n => if n = "a.txt" then some "old" else none, [], [], [], [], [], []⟩ "a.jpg").skipped =
      [] :=
  ⟨by decide, by decide, by decide, by decide⟩

end BatchCaption
